import Mathlib

/-!
Verification of the ARIA research-agent orchestration core.

The orchestration core (nodes.py, config.py, routes.py) is documented in the
repository by ANALYSIS.md and README.md; its behaviour is modelled here from
the specification and those documents.  The frontend stream handler
(aria/src/App.tsx) is embedded directly from its source.
-/

namespace Aria

/-- Priority of a planner sub-task (spec section 3). -/
inductive Priority where
  | HIGH
  | MED
  | LOW
deriving DecidableEq, Repr

/-- Search tool selected for a sub-task or round (README tool definitions). -/
inductive SearchTool where
  | web_search
  | scholar_search
  | news_search
deriving DecidableEq, Repr

/-- Reliability tier of a retrieved source (tools.py classify_source_type,
per README: academic, official, news, web hierarchy). -/
inductive ReliabilityTier where
  | academic
  | official
  | news
  | web
deriving DecidableEq, Repr

/-- A retrieved source record: url, title, snippet, reliability tier and a
relevance score in [0,1] (spec section 3, SourceRecord). -/
structure SourceRecord where
  url : String
  title : String
  snippet : String
  tier : ReliabilityTier
  score : Rat
deriving DecidableEq, Repr

/-- A planner sub-task (spec section 3, Task). -/
structure ResearchTask where
  id : Nat
  description : String
  priority : Priority
  tool : SearchTool
deriving DecidableEq, Repr

/-- Reformulation strategy emitted by the evaluator (spec section 4.3). -/
inductive Strategy where
  | broader
  | narrower
  | adjacent
  | source_targeted
deriving DecidableEq, Repr

/-- Audit-trail record of one node execution, including failed ones
(spec section 3, thinkingLog of StepRecord). -/
inductive StepRecord where
  | plan_step (note : String)
  | search_step (query : String) (ok : Bool)
  | evaluate_step (confidence : Int)
  | synthesize_step
deriving DecidableEq, Repr

/-- Modelled from the spec: the AgentState TypedDict of agent/state.py (not in
the source snapshot); field names follow ANALYSIS.md section 3.3 and spec
section 3. -/
structure AgentState where
  question : String
  tasks : List ResearchTask
  current_iteration : Nat
  max_iterations : Nat
  search_queries_used : List String
  all_search_results : List SourceRecord
  confidence_history : List Int
  cumulative_gaps : List String
  thinking_log : List StepRecord
  reformulation_hint : Option (String × Strategy)
deriving DecidableEq, Repr

/-- The fresh state at the start of a run: iteration 0, empty accumulators. -/
def initial_state (question : String) (max_iterations : Nat) : AgentState :=
  { question := question
    tasks := []
    current_iteration := 0
    max_iterations := max_iterations
    search_queries_used := []
    all_search_results := []
    confidence_history := []
    cumulative_gaps := []
    thinking_log := []
    reformulation_hint := none }

/-- The three string routes returned by should_continue, mapped by the graph's
conditional edge (ANALYSIS.md section 2.2: synthesize, force_synthesize,
search; there is no fourth constructor). -/
inductive RouteDecision where
  | synthesize
  | force_synthesize
  | search
deriving DecidableEq, Repr

/-- Modelled from the spec: should_continue of nodes.py (quoted in
ANALYSIS.md section 2.1 and drawn in the README flowchart): when the
confidence threshold is met it returns synthesize; otherwise when
current_iteration has reached max_iterations it returns force_synthesize;
otherwise search (retry). -/
def should_continue (threshold_met : Bool) (current_iteration max_iterations : Nat) :
    RouteDecision :=
  if threshold_met then
    RouteDecision.synthesize
  else if current_iteration ≥ max_iterations then
    RouteDecision.force_synthesize
  else
    RouteDecision.search

/-- C1: should_continue returns exactly one of synthesize, force_synthesize,
search: synthesize whenever the threshold is met, force_synthesize when the
threshold is not met and the iteration has reached the cap, search otherwise;
search is never returned once the iteration has reached the cap, and no
fourth outcome exists. -/
theorem should_continue_spec (tm : Bool) (it K : Nat) :
    (tm = true → should_continue tm it K = RouteDecision.synthesize) ∧
    (tm = false → K ≤ it → should_continue tm it K = RouteDecision.force_synthesize) ∧
    (tm = false → it < K → should_continue tm it K = RouteDecision.search) ∧
    (K ≤ it → should_continue tm it K ≠ RouteDecision.search) ∧
    (should_continue tm it K = RouteDecision.synthesize ∨
     should_continue tm it K = RouteDecision.force_synthesize ∨
     should_continue tm it K = RouteDecision.search) := by
  cases tm <;> simp only [should_continue] <;> split <;> simp_all
  omega

/-- C1 witness: the three routes at concrete inputs. -/
theorem should_continue_spec_witness :
    should_continue true 9 8 = RouteDecision.synthesize ∧
    should_continue false 8 8 = RouteDecision.force_synthesize ∧
    should_continue false 3 8 = RouteDecision.search :=
  ⟨(should_continue_spec true 9 8).1 rfl,
   (should_continue_spec false 8 8).2.1 rfl (by decide),
   (should_continue_spec false 3 8).2.2.1 rfl (by decide)⟩

/-- Modelled from the spec: execute_search of nodes.py. One retrieval round:
it appends the round's query to search_queries_used, appends the returned
records to all_search_results (an empty contribution on failure), logs a step,
and increments current_iteration by exactly 1 unconditionally — ANALYSIS.md
section 2.5 quotes the exception handler, which still increments the counter
and returns valid state. The outcome of the external search collaborator is
`some sources` on success and `none` on an error. -/
def execute_search (s : AgentState) (query : String)
    (outcome : Option (List SourceRecord)) : AgentState :=
  match outcome with
  | some sources =>
      { s with
        current_iteration := s.current_iteration + 1
        search_queries_used := s.search_queries_used ++ [query]
        all_search_results := s.all_search_results ++ sources
        thinking_log := s.thinking_log ++ [StepRecord.search_step query true] }
  | none =>
      { s with
        current_iteration := s.current_iteration + 1
        search_queries_used := s.search_queries_used ++ [query]
        all_search_results := s.all_search_results
        thinking_log := s.thinking_log ++ [StepRecord.search_step query false] }

/-- Modelled from the spec: the search/evaluate/decide loop of graph.py.
`tm r` is the evaluator's threshold verdict for round `r` (an external
collaborator judgment; `false` also covers a failed round). Each round
increments the iteration, then should_continue routes.  `fuel` bounds the
recursion; the termination theorem shows fuel `K` is never exhausted.
Returns the exit route and the iteration counter after the loop, or `none`
on fuel exhaustion. -/
def run_rounds (tm : Nat → Bool) (K : Nat) :
    Nat → Nat → Option (RouteDecision × Nat)
  | 0, _ => none
  | fuel + 1, it =>
      if should_continue (tm it) (it + 1) K = RouteDecision.search then
        run_rounds tm K fuel (it + 1)
      else
        some (should_continue (tm it) (it + 1) K, it + 1)

/-- Modelled from the spec: the sequence of values taken by the iteration
counter after each retrieval round of the loop of graph.py (same loop as
run_rounds, recording the counter instead of the exit route). -/
def run_trace (tm : Nat → Bool) (K : Nat) : Nat → Nat → List Nat
  | 0, _ => []
  | fuel + 1, it =>
      if should_continue (tm it) (it + 1) K = RouteDecision.search then
        (it + 1) :: run_trace tm K fuel (it + 1)
      else
        [it + 1]

/-- The loop only retries while the iteration counter is below the cap. -/
theorem should_continue_search_lt (tm : Bool) (it K : Nat)
    (h : should_continue tm it K = RouteDecision.search) : it < K := by
  by_contra hlt
  exact (should_continue_spec tm it K).2.2.2.1 (by omega) h

/-- With enough fuel the loop always exits through a synthesis route, and the
final iteration counter never exceeds the cap. -/
theorem run_rounds_exits (tm : Nat → Bool) (K : Nat) :
    ∀ fuel it, K ≤ it + fuel → it < K →
    ∃ r fi, run_rounds tm K fuel it = some (r, fi) ∧ fi ≤ K ∧
      r ≠ RouteDecision.search := by
  intro fuel
  induction fuel with
  | zero => intro it h1 h2; omega
  | succ n ih =>
      intro it h1 h2
      rw [run_rounds]
      by_cases hr : should_continue (tm it) (it + 1) K = RouteDecision.search
      · rw [if_pos hr]
        have hlt := should_continue_search_lt (tm it) (it + 1) K hr
        exact ih (it + 1) (by omega) hlt
      · rw [if_neg hr]
        exact ⟨should_continue (tm it) (it + 1) K, it + 1, rfl, by omega, hr⟩

/-- C2: for every configured cap K > 0 and every sequence of evaluator
verdicts (including a run where every round fails, i.e. tm is constantly
false), the loop run with fuel K reaches a synthesis route — so the
Synthesizer is reached after at most K retrieval rounds — and the iteration
counter after the loop satisfies iteration ≤ K. -/
theorem run_reaches_synthesizer (tm : Nat → Bool) (K : Nat) (hK : 0 < K) :
    ∃ r fi, run_rounds tm K K 0 = some (r, fi) ∧ fi ≤ K ∧
      (r = RouteDecision.synthesize ∨ r = RouteDecision.force_synthesize) := by
  obtain ⟨r, fi, hrun, hle, hne⟩ := run_rounds_exits tm K K 0 (by omega) hK
  refine ⟨r, fi, hrun, hle, ?_⟩
  cases r with
  | synthesize => exact Or.inl rfl
  | force_synthesize => exact Or.inr rfl
  | search => exact absurd rfl hne

/-- C2 witness: a run with cap 3 in which every evaluation fails still exits
through force_synthesize with iteration 3 ≤ 3. -/
theorem run_reaches_synthesizer_witness :
    ∃ r fi, run_rounds (fun _ => false) 3 3 0 = some (r, fi) ∧ fi ≤ 3 ∧
      (r = RouteDecision.synthesize ∨ r = RouteDecision.force_synthesize) :=
  run_reaches_synthesizer (fun _ => false) 3 (by decide)

/-- Every iteration value observed in the loop trace stays within the cap. -/
theorem run_trace_bounded (tm : Nat → Bool) (K : Nat) :
    ∀ fuel it, it < K → ∀ x ∈ run_trace tm K fuel it, x ≤ K := by
  intro fuel
  induction fuel with
  | zero => intro it _ x hx; simp [run_trace] at hx
  | succ n ih =>
      intro it hit x hx
      rw [run_trace] at hx
      by_cases hr : should_continue (tm it) (it + 1) K = RouteDecision.search
      · rw [if_pos hr] at hx
        have hlt := should_continue_search_lt (tm it) (it + 1) K hr
        rcases List.mem_cons.mp hx with h | h
        · omega
        · exact ih (it + 1) hlt x h
      · rw [if_neg hr] at hx
        simp at hx
        omega

/-- The i-th entry of the loop trace started at counter value it is
it + 1 + i: the counter increases by exactly 1 per round. -/
theorem run_trace_arith (tm : Nat → Bool) (K : Nat) :
    ∀ fuel it i, i < (run_trace tm K fuel it).length →
      (run_trace tm K fuel it).getD i 0 = it + 1 + i := by
  intro fuel
  induction fuel with
  | zero => intro it i hi; simp [run_trace] at hi
  | succ n ih =>
      intro it i hi
      rw [run_trace] at hi ⊢
      by_cases hr : should_continue (tm it) (it + 1) K = RouteDecision.search
      · rw [if_pos hr] at hi ⊢
        cases i with
        | zero => simp
        | succ j =>
            simp only [List.getD_cons_succ]
            have := ih (it + 1) j (by simpa using hi)
            omega
      · rw [if_neg hr] at hi ⊢
        simp only [List.length_cons, List.length_nil] at hi
        interval_cases i
        simp

/-- C3: the iteration counter starts at 0, is incremented by exactly 1 by
every execute_search round — including a round where the external search
collaborator errors (outcome none) — never decreases, and every value it
takes during a run with cap K > 0 satisfies 0 ≤ x ≤ K: the trace of counter
values of the loop started at 0 is 1, 2, 3, ... (entry i is i + 1), all
within the cap. -/
theorem iteration_counter_invariant (tm : Nat → Bool) (K : Nat)
    (s : AgentState) (q : String) (o : Option (List SourceRecord)) (i : Nat)
    (hK : 0 < K) (hi : i < (run_trace tm K K 0).length) :
    (execute_search s q o).current_iteration = s.current_iteration + 1 ∧
    (∀ x ∈ run_trace tm K K 0, 0 ≤ x ∧ x ≤ K) ∧
    (run_trace tm K K 0).getD i 0 = i + 1 := by
  refine ⟨?_, ?_, ?_⟩
  · cases o <;> rfl
  · intro x hx
    exact ⟨Nat.zero_le x, run_trace_bounded tm K K 0 hK x hx⟩
  · have := run_trace_arith tm K K 0 i hi
    omega

/-- C3 witness: a failing round increments the counter of the fresh state to
1, and the trace of a cap-2 all-failing run is 1, 2, both within the cap. -/
theorem iteration_counter_invariant_witness :
    0 < 2 ∧ 0 < (run_trace (fun _ => false) 2 2 0).length ∧
    ((execute_search (initial_state "q" 2) "quantum" none).current_iteration
        = (initial_state "q" 2).current_iteration + 1 ∧
      (∀ x ∈ run_trace (fun _ => false) 2 2 0, 0 ≤ x ∧ x ≤ 2) ∧
      (run_trace (fun _ => false) 2 2 0).getD 0 0 = 0 + 1) :=
  ⟨by decide, by decide,
    iteration_counter_invariant (fun _ => false) 2 (initial_state "q" 2)
      "quantum" none 0 (by decide) (by decide)⟩

/-- Modelled from the spec: the four bounded sub-scores of the Evaluator
Prompt V2 rubric (README: coverage 40, reliability 30, recency 15,
consistency 15 points max). -/
structure SubScores where
  coverage : Int
  reliability : Int
  recency : Int
  consistency : Int
deriving DecidableEq, Repr

/-- A sub-score vector respecting the rubric caps: each component lies in
its stated range. -/
def SubScores.valid (s : SubScores) : Prop :=
  0 ≤ s.coverage ∧ s.coverage ≤ 40 ∧
  0 ≤ s.reliability ∧ s.reliability ≤ 30 ∧
  0 ≤ s.recency ∧ s.recency ≤ 15 ∧
  0 ≤ s.consistency ∧ s.consistency ≤ 15

instance (s : SubScores) : Decidable s.valid := by
  unfold SubScores.valid
  infer_instance

/-- Modelled from the spec: the weighted composite confidence of
evaluate_results — the sum of the four rubric sub-scores (README Evaluator
Prompt V2 step 4; ANALYSIS.md weighted rubric). -/
def rubric_confidence (s : SubScores) : Int :=
  s.coverage + s.reliability + s.recency + s.consistency

/-- C4: for every evaluated round whose sub-scores respect the rubric caps,
the confidence equals coverage + reliability + recency + consistency and
satisfies 0 ≤ confidence ≤ 100. -/
theorem rubric_confidence_bounds (s : SubScores) (h : s.valid) :
    rubric_confidence s = s.coverage + s.reliability + s.recency + s.consistency ∧
    0 ≤ rubric_confidence s ∧ rubric_confidence s ≤ 100 := by
  obtain ⟨h1, h2, h3, h4, h5, h6, h7, h8⟩ := h
  refine ⟨rfl, ?_, ?_⟩ <;> (unfold rubric_confidence; omega)

/-- C4 witness: the rubric at a concrete sub-score vector. -/
theorem rubric_confidence_bounds_witness :
    (SubScores.mk 35 20 10 5).valid ∧
    (rubric_confidence (SubScores.mk 35 20 10 5)
        = 35 + 20 + 10 + 5 ∧
      0 ≤ rubric_confidence (SubScores.mk 35 20 10 5) ∧
      rubric_confidence (SubScores.mk 35 20 10 5) ≤ 100) :=
  ⟨by decide, rubric_confidence_bounds (SubScores.mk 35 20 10 5) (by decide)⟩

/-- A citation emitted by the synthesizer (spec section 3, FinalAnswer). -/
structure Citation where
  id : Nat
  url : String
  title : String
  tier : ReliabilityTier
deriving DecidableEq, Repr

/-- The terminal answer produced by the synthesizer (spec section 3,
FinalAnswer). -/
structure FinalAnswer where
  answer : String
  citations : List Citation
  contradictions : List (String × String × String)
  final_confidence : Int
  caveats : List String
deriving DecidableEq, Repr

/-- Modelled from the spec: the bounded window read by synthesize_results —
ANALYSIS.md section 1.3 records that the synthesis prompt truncates to the
first 15 results, all_results[:15], and section 3.3 repeats that the
synthesis prompt sends the top 15 in list order. -/
def synthesis_window (all_results : List SourceRecord) : List SourceRecord :=
  all_results.take 15

/-- The degraded answer text used when no data was accumulated (spec section
4.5; ANALYSIS.md section 3.2 fallback answer). -/
def ungrounded_text : String :=
  "Research synthesis could not be grounded: no sources were retrieved. Please retry with a more specific query."

/-- Modelled from the spec: synthesize_results of nodes.py. On an empty
accumulator it returns — never raises — a degraded but well-formed
FinalAnswer whose text states that synthesis could not be grounded, with
final confidence 0 and no citations (spec section 4.5). On a non-empty
accumulator the external generation collaborator `gen` is applied to the
bounded synthesis window only. -/
def synthesize_results (gen : List SourceRecord → FinalAnswer)
    (all_results : List SourceRecord) : FinalAnswer :=
  if all_results.isEmpty then
    { answer := ungrounded_text
      citations := []
      contradictions := []
      final_confidence := 0
      caveats := ["no accumulated search data"] }
  else
    gen (synthesis_window all_results)

/-- C5: invoked with an empty accumulator, the synthesizer returns a
well-formed FinalAnswer whose text is the explicit could-not-be-grounded
statement, with final confidence 0 and an empty citations list, for every
generation collaborator. -/
theorem synthesize_results_empty (gen : List SourceRecord → FinalAnswer) :
    synthesize_results gen [] =
      { answer := ungrounded_text
        citations := []
        contradictions := []
        final_confidence := 0
        caveats := ["no accumulated search data"] } ∧
    (synthesize_results gen []).final_confidence = 0 ∧
    (synthesize_results gen []).citations = [] ∧
    ungrounded_text =
      "Research synthesis " ++ "could not be grounded" ++
        ": no sources were retrieved. Please retry with a more specific query." := by
  exact ⟨rfl, rfl, rfl, rfl⟩

/-- The synthesis window never exceeds 15 records, and the records beyond it
stay untouched in the accumulator: the window followed by the dropped tail
is exactly the accumulated list. -/
theorem synthesis_window_spec (all_results : List SourceRecord) :
    (synthesis_window all_results).length ≤ 15 ∧
    synthesis_window all_results ++ all_results.drop 15 = all_results := by
  constructor
  · simp [synthesis_window]
  · simp [synthesis_window]

/-- The spec's words for the window: a selection of the most relevant
results by score — no excluded record scores strictly higher than every
included one. Stated here only to be compared with synthesis_window. -/
def window_is_top_by_score (all_results window : List SourceRecord) : Prop :=
  ∀ r ∈ all_results, r ∉ window → ∀ q ∈ window, ¬ q.score < r.score

instance (l w : List SourceRecord) : Decidable (window_is_top_by_score l w) := by
  unfold window_is_top_by_score
  infer_instance

/-- Fifteen identical low-scored records followed by one high-scored one. -/
def skewed_results : List SourceRecord :=
  List.replicate 15
      { url := "https://low.example", title := "low", snippet := ""
        tier := ReliabilityTier.web, score := 0 } ++
    [{ url := "https://high.example", title := "high", snippet := ""
       tier := ReliabilityTier.academic, score := 1 }]

/-- C6 counterexample: the synthesizer window is the first 15 results in
accumulation order, not the top 15 by score — on skewed_results the
highest-scored record is excluded while every included record scores
strictly lower. -/
theorem synthesis_window_not_by_score :
    ¬ window_is_top_by_score skewed_results (synthesis_window skewed_results) := by
  decide

/-- One evaluation outcome appended to the state (spec section 3,
EvaluationResult). -/
structure EvaluationResult where
  confidence : Int
  threshold_met : Bool
  gaps : List String
  reformulation : Option (String × Strategy)
  sources_found : Nat
deriving DecidableEq, Repr

/-- Modelled from the spec: the state-mutating orchestration steps; the graph
nodes and the deltas each contributes (plan_research, execute_search,
evaluate_results, synthesize_results of nodes.py). -/
inductive OrchStep where
  | plan_node (tasks : List ResearchTask) (note : String)
  | search_node (query : String) (outcome : Option (List SourceRecord))
  | evaluate_node (ev : EvaluationResult)
  | synthesize_node
deriving DecidableEq, Repr

/-- Modelled from the spec: the state update applied by one orchestration
step. All accumulators grow via list concatenation — ANALYSIS.md section 3.3:
all_search_results and thinking_log grow via Annotated list operator.add,
search_queries_used and confidence_history grow by one entry per iteration;
cumulative gaps grow by union (appending the not-yet-present gaps). -/
def apply_step (s : AgentState) (st : OrchStep) : AgentState :=
  match st with
  | OrchStep.plan_node tasks note =>
      { s with
        tasks := tasks
        thinking_log := s.thinking_log ++ [StepRecord.plan_step note] }
  | OrchStep.search_node query outcome => execute_search s query outcome
  | OrchStep.evaluate_node ev =>
      { s with
        confidence_history := s.confidence_history ++ [ev.confidence]
        cumulative_gaps :=
          s.cumulative_gaps ++ ev.gaps.filter (fun g => g ∉ s.cumulative_gaps)
        reformulation_hint := ev.reformulation
        thinking_log := s.thinking_log ++ [StepRecord.evaluate_step ev.confidence] }
  | OrchStep.synthesize_node =>
      { s with thinking_log := s.thinking_log ++ [StepRecord.synthesize_step] }

/-- One list grows to another by appending at the end: the former is a
prefix of the latter. -/
def grows_to {α : Type} (xs ys : List α) : Prop :=
  ∃ tail, xs ++ tail = ys

/-- C7: every orchestration step only appends to all_search_results,
search_queries_used, confidence_history and thinking_log — after every step
the previous sequence is an initial segment of the new one, so none of them
ever shrinks, and the results accumulator is never truncated during
accumulation. -/
theorem accumulators_append_only (s : AgentState) (st : OrchStep) :
    grows_to s.all_search_results (apply_step s st).all_search_results ∧
    grows_to s.search_queries_used (apply_step s st).search_queries_used ∧
    grows_to s.confidence_history (apply_step s st).confidence_history ∧
    grows_to s.thinking_log (apply_step s st).thinking_log ∧
    s.all_search_results.length ≤ (apply_step s st).all_search_results.length ∧
    s.search_queries_used.length ≤ (apply_step s st).search_queries_used.length ∧
    s.confidence_history.length ≤ (apply_step s st).confidence_history.length ∧
    s.thinking_log.length ≤ (apply_step s st).thinking_log.length := by
  have key : ∀ st : OrchStep,
      grows_to s.all_search_results (apply_step s st).all_search_results ∧
      grows_to s.search_queries_used (apply_step s st).search_queries_used ∧
      grows_to s.confidence_history (apply_step s st).confidence_history ∧
      grows_to s.thinking_log (apply_step s st).thinking_log := by
    intro st
    cases st with
    | plan_node tasks note =>
        exact ⟨⟨[], by simp [apply_step]⟩, ⟨[], by simp [apply_step]⟩,
          ⟨[], by simp [apply_step]⟩, ⟨_, rfl⟩⟩
    | search_node query outcome =>
        cases outcome with
        | some sources =>
            exact ⟨⟨sources, rfl⟩, ⟨[query], rfl⟩, ⟨[], by simp [apply_step, execute_search]⟩,
              ⟨_, rfl⟩⟩
        | none =>
            exact ⟨⟨[], by simp [apply_step, execute_search]⟩, ⟨[query], rfl⟩,
              ⟨[], by simp [apply_step, execute_search]⟩, ⟨_, rfl⟩⟩
    | evaluate_node ev =>
        exact ⟨⟨[], by simp [apply_step]⟩, ⟨[], by simp [apply_step]⟩,
          ⟨[ev.confidence], rfl⟩, ⟨_, rfl⟩⟩
    | synthesize_node =>
        exact ⟨⟨[], by simp [apply_step]⟩, ⟨[], by simp [apply_step]⟩,
          ⟨[], by simp [apply_step]⟩, ⟨_, rfl⟩⟩
  obtain ⟨⟨t1, h1⟩, ⟨t2, h2⟩, ⟨t3, h3⟩, ⟨t4, h4⟩⟩ := key st
  refine ⟨⟨t1, h1⟩, ⟨t2, h2⟩, ⟨t3, h3⟩, ⟨t4, h4⟩, ?_, ?_, ?_, ?_⟩ <;>
    simp [← h1, ← h2, ← h3, ← h4]

/-- C8 counterexample: the code does not enforce retry-query distinctness —
the no-repeat rule is a prompt-level instruction only (ANALYSIS.md section
2.4), and execute_search appends the produced query unconditionally. A retry
round (iteration 1 > 0) that reproduces the first round's query yields a
search_queries_used list with two byte-equal elements. -/
theorem queries_used_duplicate_counterexample :
    (execute_search (initial_state "q" 8) "quantum computing 2024" none).current_iteration
        = 1 ∧
    (execute_search
        (execute_search (initial_state "q" 8) "quantum computing 2024" none)
        "quantum computing 2024" none).search_queries_used
      = ["quantum computing 2024", "quantum computing 2024"] ∧
    ¬ (execute_search
        (execute_search (initial_state "q" 8) "quantum computing 2024" none)
        "quantum computing 2024" none).search_queries_used.Nodup := by
  refine ⟨rfl, rfl, ?_⟩
  decide

/-- C8 amended: when the collaborator-produced query of a round does differ
from every string already in search_queries_used — the soft contract the
prompt states — appending it preserves the invariant that no two accumulated
queries are byte-equal. -/
theorem queries_used_nodup_preserved (s : AgentState) (q : String)
    (o : Option (List SourceRecord))
    (hfresh : q ∉ s.search_queries_used)
    (hnodup : s.search_queries_used.Nodup) :
    (execute_search s q o).search_queries_used.Nodup := by
  have : (execute_search s q o).search_queries_used
      = s.search_queries_used ++ [q] := by
    cases o <;> rfl
  rw [this]
  simpa [List.nodup_append] using ⟨hnodup, hfresh⟩

/-- C8 amended witness: a fresh second query keeps the accumulator
duplicate-free. -/
theorem queries_used_nodup_preserved_witness :
    "ai chips 2024" ∉
        (execute_search (initial_state "q" 8) "quantum computing 2024" none).search_queries_used ∧
    (execute_search (initial_state "q" 8) "quantum computing 2024" none).search_queries_used.Nodup ∧
    (execute_search
        (execute_search (initial_state "q" 8) "quantum computing 2024" none)
        "ai chips 2024" none).search_queries_used.Nodup :=
  ⟨by decide, by decide,
    queries_used_nodup_preserved
      (execute_search (initial_state "q" 8) "quantum computing 2024" none)
      "ai chips 2024" none (by decide) (by decide)⟩

/-- Model of the JavaScript String.prototype.trim builtin used by App.tsx:
strip leading and trailing whitespace characters. -/
def js_trim (s : String) : String :=
  String.mk
    (((s.data.dropWhile Char.isWhitespace).reverse.dropWhile
        Char.isWhitespace).reverse)

/-- From src/aria/src/App.tsx runSimulation: the handler opens with
`if (!query.trim()) return;` — the backend is contacted exactly when the
trimmed query is a non-empty (truthy) string. -/
def runSimulation_contacts_backend (query : String) : Bool :=
  !(js_trim query).data.isEmpty

/-- Modelled from the spec: the /api/research/stream request boundary of
api/routes.py. ANALYSIS.md section 3.1 records that this endpoint performs no
input validation on the query, so every question string — the empty string
included — is accepted and a run (planning, then retrieval) is started. -/
def research_stream_runs (_question : String) : Bool :=
  true

/-- C9 counterexample: the backend boundary does not treat an empty question
as a validation failure — the stream endpoint starts a run for the empty
string as well, so planning is performed. -/
theorem empty_question_backend_counterexample :
    research_stream_runs "" = true := by
  rfl

/-- C9 amended: the non-empty constraint is enforced only in the frontend —
runSimulation returns without contacting the backend when the query is empty
or whitespace-only and proceeds on a non-blank query, while the backend
stream endpoint starts a run for every question string. -/
theorem empty_question_frontend_gate :
    runSimulation_contacts_backend "" = false ∧
    runSimulation_contacts_backend "   " = false ∧
    runSimulation_contacts_backend " \t\n " = false ∧
    runSimulation_contacts_backend "quantum computing" = true ∧
    (∀ question : String, research_stream_runs question = true) := by
  exact ⟨by decide, by decide, by decide, by decide, fun _ => rfl⟩

/-- An entry of the frontend sources panel (the object built in the
search-step branch of App.tsx; the time-based id, the derived domain and the
constant empty snippet are omitted as irrelevant to url identity). -/
structure UISource where
  url : String
  title : String
  reliability : String
  stype : String
deriving DecidableEq, Repr

/-- A raw search result carried by a step event's data.sources entry in
App.tsx. -/
structure RawSource where
  url : String
  title : String
  score : Rat
  source_type : String
deriving DecidableEq, Repr

/-- From src/aria/src/App.tsx (search_initial and search_retry handling):
raw results are filtered to those with a truthy url and title, then mapped to
panel entries — reliability HIGH above score 0.8, MEDIUM above 0.5, LOW
otherwise, and a type tag from source_type. -/
def extract_sources (raw : List RawSource) : List UISource :=
  (raw.filter (fun s => !s.url.data.isEmpty && !s.title.data.isEmpty)).map
    (fun s =>
      { url := s.url
        title := s.title
        reliability :=
          if s.score > mkRat 4 5 then "HIGH"
          else if s.score > mkRat 1 2 then "MEDIUM"
          else "LOW"
        stype :=
          if s.source_type = "academic" then "Academic"
          else if s.source_type = "news" then "News"
          else if s.source_type = "official" then "Official"
          else "Web" })

/-- From src/aria/src/App.tsx lines 664-668: the setSources functional
update — the urls already stored are collected into a set, the incoming
batch is filtered to the entries whose url is not in that set, and the
survivors are appended after the existing entries. -/
def add_sources (prev incoming : List UISource) : List UISource :=
  prev ++ incoming.filter (fun s => !(prev.map (fun p => p.url)).contains s.url)

/-- A search batch carrying the same url twice under different titles. -/
def dup_batch : List RawSource :=
  [{ url := "https://a.example/x", title := "first copy", score := 1
     source_type := "web" },
   { url := "https://a.example/x", title := "second copy", score := 0
     source_type := "web" }]

/-- C10 counterexample: deduplication is only against the previously stored
entries — a single search event whose extracted batch carries the same url
twice adds both copies, so after that event the sources list holds two
entries with the same url, both coming from a search event. -/
theorem sources_url_unique_counterexample :
    ¬ ((add_sources [] (extract_sources dup_batch)).map
        (fun s => s.url)).Nodup := by
  decide

/-- C10 amended: adding a search batch keeps every existing entry unchanged
in place (the previous list is an initial segment of the new one), every
entry it appends has a url not already stored — an extracted source whose
url equals an existing entry's url is discarded — and, provided the batch
itself carries pairwise-distinct urls, the stored urls remain pairwise
distinct. -/
theorem add_sources_spec (prev incoming : List UISource)
    (hprev : (prev.map (fun s => s.url)).Nodup)
    (hinc : (incoming.map (fun s => s.url)).Nodup) :
    grows_to prev (add_sources prev incoming) ∧
    (∀ s ∈ (add_sources prev incoming).drop prev.length,
        s.url ∉ prev.map (fun p => p.url)) ∧
    ((add_sources prev incoming).map (fun s => s.url)).Nodup := by
  refine ⟨⟨_, rfl⟩, ?_, ?_⟩
  · intro s hs
    rw [add_sources, List.drop_left] at hs
    have := (List.mem_filter.mp hs).2
    simpa using this
  · rw [add_sources, List.map_append, List.nodup_append]
    refine ⟨hprev, ?_, ?_⟩
    · exact hinc.sublist ((incoming.filter_sublist).map (fun s => s.url))
    · intro u hu hu2
      obtain ⟨s, hs, hsu⟩ := List.mem_map.mp hu2
      have hflt := (List.mem_filter.mp hs).2
      rw [Bool.not_eq_eq_eq_not, Bool.not_true] at hflt
      rw [← hsu] at hu
      have hflt2 : List.elem s.url (List.map (fun s => s.url) prev) = false := hflt
      exact absurd (List.elem_iff.mpr hu) (by rw [hflt2]; simp)

/-- An already stored entry and a batch repeating its url plus a new one. -/
def ex_prev : List UISource :=
  [{ url := "https://a.example", title := "A", reliability := "HIGH"
     stype := "Web" }]

/-- The incoming batch for the C10 amended witness. -/
def ex_batch : List UISource :=
  [{ url := "https://a.example", title := "A again", reliability := "LOW"
     stype := "Web" },
   { url := "https://b.example", title := "B", reliability := "LOW"
     stype := "Web" }]

/-- C10 amended witness: the dedup-and-append behaviour at a concrete stored
list and batch. -/
theorem add_sources_spec_witness :
    ((ex_prev.map (fun s => s.url)).Nodup ∧
      (ex_batch.map (fun s => s.url)).Nodup) ∧
    (grows_to ex_prev (add_sources ex_prev ex_batch) ∧
      (∀ s ∈ (add_sources ex_prev ex_batch).drop ex_prev.length,
        s.url ∉ ex_prev.map (fun p => p.url)) ∧
      ((add_sources ex_prev ex_batch).map (fun s => s.url)).Nodup) :=
  ⟨⟨by decide, by decide⟩, add_sources_spec ex_prev ex_batch (by decide) (by decide)⟩

end Aria
